import Mathlib

/-!
Shallow embedding of the `pocket` PocketBase client library (Rust) for
checking its natural-language specification.

The embedding follows the source files:
  * `src/lib.rs`          — `Token`, `Claims`, `AuthResult`, `PocketBaseError`,
                            option structs, `BatchRequest`
  * `src/blocking/mod.rs` — blocking `PocketBase` (`is_valid`, `auth_refresh`,
                            `ExtendAuth::authenticate`)
  * `src/non_blocking/mod.rs` — the near-identical non-blocking `PocketBase`
  * `src/non_blocking/collection.rs` — `CollectionBuilder::get_list`
  * `src/batch.rs`        — `BatchBuilder::send`
  * `src/client.rs`       — `Client`, `AuthorizedClient`, `Token::is_expired`,
                            `AuthorizedClient::refresh`, request builders

Modelling conventions:
  * `chrono::DateTime<Utc>` timestamps are modelled as integers (`Time := Int`);
    every expiry constructed by the code comes from `Utc.timestamp_opt(exp, 0)`,
    i.e. whole seconds, and only the order on timestamps is ever used.
  * A JWT bearer string is modelled as a `Jwt`: its raw string together with
    the (deterministic) outcome of `jsonwebtoken::dangerous::insecure_decode`
    on it, so that the unverified claims decode is a total function.
  * The HTTP transport is an oracle: each network interaction takes the
    server's answer (`HttpOutcome`) as an argument, and every function that
    performs network calls also returns the list of requests it issued, so
    that claims about "number of network calls" are statable.
  * Rust `Result<T, Error>` is `Except Error T`; panics (`unwrap` on data the
    code does not control) are modelled with `Option`.
-/

set_option autoImplicit false
set_option linter.dupNamespace false

namespace Pocket

/-- Decidable equality on `Except`, so that concrete call results can be
compared by `decide`. -/
instance {ε α : Type} [DecidableEq ε] [DecidableEq α] : DecidableEq (Except ε α) := fun a b =>
  match a, b with
  | .ok x, .ok y =>
    if h : x = y then .isTrue (by rw [h]) else .isFalse (by intro hc; cases hc; exact h rfl)
  | .error x, .error y =>
    if h : x = y then .isTrue (by rw [h]) else .isFalse (by intro hc; cases hc; exact h rfl)
  | .ok _, .error _ => .isFalse (by intro hc; cases hc)
  | .error _, .ok _ => .isFalse (by intro hc; cases hc)

/-- Timestamps, standing for `chrono::DateTime<Utc>`; only the linear order is
used by the code under study. -/
abbrev Time := Int

/-- Conversion `Utc.timestamp_opt(secs, 0).unwrap()` from a JWT `exp` claim (in
whole seconds) to a timestamp. With `Time := Int` seconds this is the
identity (the out-of-range panic of `unwrap` cannot occur for the orders of
magnitude of real expiry claims, so it is not modelled). -/
def timestamp (secs : Int) : Time := secs

/-- A JSON value (`serde_json::Value`); numbers are modelled as integers,
which covers every number the claims touch. -/
inductive Json where
  | null
  | bool (b : Bool)
  | num (n : Int)
  | str (s : String)
  | arr (items : List Json)
  | obj (fields : List (String × Json))

/-- Field access used by `record.as_object().unwrap().get("id").unwrap().as_str().unwrap()`:
returns the string value of field `k` when the value is an object with such a
string field, and `none` (the panic case) otherwise. -/
def Json.getStrField (j : Json) (k : String) : Option String :=
  match j with
  | .obj fields =>
    match fields.lookup k with
    | some (.str s) => some s
    | _ => none
  | _ => none

/-- The claims of a PocketBase JWT (`Claims` in `src/lib.rs`): payload fields
`id`, `collectionId`, `exp`, `refreshable`, `type`. -/
structure Claims where
  id : String
  collectionId : String
  exp : Int
  refreshable : Bool
  ty : String
deriving DecidableEq, Repr

/-- A bearer token string together with the outcome of
`Claims::decode_unsafe` (the unverified JWT payload decode) on it; decode
failure carries the error message that `From<jsonwebtoken::errors::Error>`
would wrap into `Error::Custom`. -/
structure Jwt where
  raw : String
  payload : Except String Claims
deriving DecidableEq, Repr

/-- A field error in a PocketBase error response (`FieldError` in
`src/error.rs`). -/
structure FieldError where
  code : String
  message : String
deriving DecidableEq, Repr

/-- The library error type (`Error` in `src/error.rs`). The spec calls the
first variant `Authentication` and the second `Unauthenticated`. -/
inductive Error where
  | Authorization (message : String) (data : List (String × FieldError))
  | Unauthorized
  | Custom (message : String)
deriving DecidableEq, Repr

/-- The stored token (`Token` in `src/lib.rs`, used by both `PocketBase`
implementations). -/
structure Token where
  auth : String
  expires : Time
  refreshable : Bool
  ty : String
  collection : String
deriving DecidableEq, Repr

/-- The session holder (`PocketBase` in `src/blocking/mod.rs` and, with an
identical definition, in `src/non_blocking/mod.rs`). The `client` field is the
HTTP transport, which the embedding replaces by response oracles. -/
structure PocketBase where
  base_uri : String
  token : Option Token
deriving DecidableEq, Repr

/-- An HTTP request as constructed by the request builders: method, full URL
and ordered header list. -/
structure HttpRequest where
  method : String
  url : String
  headers : List (String × String)
deriving DecidableEq, Repr

/-- Oracle for one network interaction: either the transport or the body
deserialization fails with an `std::io::Error` / client error (whose message
`From` wraps into `Error::Custom`), or the body parses as an `α`. -/
inductive HttpOutcome (α : Type) where
  | ioError (message : String)
  | ok (value : α)

/-- The auth endpoint response (`AuthResult` in `src/lib.rs`): either an
explicit error envelope or a success carrying the new bearer. -/
inductive AuthResult where
  | Error (status : Nat) (message : Option String) (data : Option Json)
  | Success (token : Jwt)

/-- Path of the auth-refresh endpoint for a collection, as interpolated by
`format!("{}/api/collections/{collection}/auth-refresh", ...)`. -/
def refreshPath (collection : String) : String :=
  "/api/collections/" ++ collection ++ "/auth-refresh"

/-- Result of a `PocketBase::auth_refresh` call: the returned
`Result<(), Error>`, the post-call session state, and the network requests
issued (in order). -/
structure RefreshResult where
  result : Except Error Unit
  state : PocketBase
  calls : List HttpRequest
deriving DecidableEq, Repr

namespace Blocking

/-- The expiry check `PocketBase::is_valid` of `src/blocking/mod.rs`:
`self.token.as_ref().is_some_and(|t| t.expires > now)`. -/
def is_valid (pb : PocketBase) (now : Time) : Bool :=
  pb.token.any fun t => t.expires > now

/-- The blocking `PocketBase::auth_refresh` of `src/blocking/mod.rs`. Note
that `self.token.take()` removes the stored token before the network call and
only `replace`s it on the success path. The oracle `resp` is the outcome of
`.send()?.json::<AuthResult>()?` for the refresh request. -/
def auth_refresh (pb : PocketBase) (resp : HttpOutcome AuthResult) : RefreshResult :=
  match pb.token with
  | some t =>
    let taken : PocketBase := { pb with token := none }
    let req : HttpRequest :=
      { method := "POST"
        url := pb.base_uri ++ refreshPath t.collection
        headers := [("Authorization", t.auth)] }
    match resp with
    | .ioError msg => ⟨.error (.Custom msg), taken, [req]⟩
    | .ok (.Error _ message _) =>
      ⟨.error (.Custom (message.getD "failed to authenticate user")), taken, [req]⟩
    | .ok (.Success jwt) =>
      match jwt.payload with
      | .error e => ⟨.error (.Custom e), taken, [req]⟩
      | .ok claims =>
        ⟨.ok (),
          { taken with
            token := some
              { collection := t.collection
                auth := jwt.raw
                refreshable := claims.refreshable
                ty := claims.ty
                expires := timestamp claims.exp } },
          [req]⟩
  | none =>
    ⟨.error (.Custom "unauthorized client; try running a auth_with_* method first"), pb, []⟩

/-- Result of the `ExtendAuth::authenticate` decorator: the returned
`Result<Option<String>, Error>`, the post-call state, the network requests
issued, and the number of `auth_refresh` invocations it made. -/
structure AuthOutcome where
  result : Except Error (Option String)
  state : PocketBase
  calls : List HttpRequest
  refreshes : Nat
deriving DecidableEq, Repr

/-- The decorator `ExtendAuth::authenticate` for the blocking `PocketBase`
(`src/blocking/mod.rs`): refresh when a token is present but stale, then hand
back the (possibly refreshed) bearer, if any. -/
def authenticate (pb : PocketBase) (now : Time) (resp : HttpOutcome AuthResult) :
    AuthOutcome :=
  if pb.token.isSome && !(is_valid pb now) then
    let r := auth_refresh pb resp
    match r.result with
    | .error e => ⟨.error e, r.state, r.calls, 1⟩
    | .ok _ => ⟨.ok (r.state.token.map Token.auth), r.state, r.calls, 1⟩
  else
    ⟨.ok (pb.token.map Token.auth), pb, [], 0⟩

end Blocking

namespace NonBlocking

/-- The expiry check `PocketBase::is_valid` of `src/non_blocking/mod.rs`
(textually identical to the blocking one). -/
def is_valid (pb : PocketBase) (now : Time) : Bool :=
  pb.token.any fun t => t.expires > now

/-- The non-blocking `PocketBase::auth_refresh` of `src/non_blocking/mod.rs`;
apart from `async`/`await` it is textually identical to the blocking version,
including the `self.token.take()` before the network call. -/
def auth_refresh (pb : PocketBase) (resp : HttpOutcome AuthResult) : RefreshResult :=
  match pb.token with
  | some t =>
    let taken : PocketBase := { pb with token := none }
    let req : HttpRequest :=
      { method := "POST"
        url := pb.base_uri ++ refreshPath t.collection
        headers := [("Authorization", t.auth)] }
    match resp with
    | .ioError msg => ⟨.error (.Custom msg), taken, [req]⟩
    | .ok (.Error _ message _) =>
      ⟨.error (.Custom (message.getD "failed to authenticate user")), taken, [req]⟩
    | .ok (.Success jwt) =>
      match jwt.payload with
      | .error e => ⟨.error (.Custom e), taken, [req]⟩
      | .ok claims =>
        ⟨.ok (),
          { taken with
            token := some
              { collection := t.collection
                auth := jwt.raw
                refreshable := claims.refreshable
                ty := claims.ty
                expires := timestamp claims.exp } },
          [req]⟩
  | none =>
    ⟨.error (.Custom "unauthorized client; try running a auth_with_* method first"), pb, []⟩

/-- The decorator `ExtendAuth::authenticate` for the non-blocking `PocketBase`
(`src/non_blocking/mod.rs`). -/
def authenticate (pb : PocketBase) (now : Time) (resp : HttpOutcome AuthResult) :
    Blocking.AuthOutcome :=
  if pb.token.isSome && !(is_valid pb now) then
    let r := auth_refresh pb resp
    match r.result with
    | .error e => ⟨.error e, r.state, r.calls, 1⟩
    | .ok _ => ⟨.ok (r.state.token.map Token.auth), r.state, r.calls, 1⟩
  else
    ⟨.ok (pb.token.map Token.auth), pb, [], 0⟩

end NonBlocking

/-! ### Query-string serialization (`serde_urlencoded`) -/

/-- Uppercase hexadecimal digit. -/
def hexDigit (n : Nat) : Char :=
  if n < 10 then Char.ofNat (48 + n) else Char.ofNat (55 + n)

/-- Percent-encoding of one byte, uppercase hex, as produced by
`form_urlencoded`. -/
def percentByte (b : UInt8) : String :=
  "%" ++ String.mk [hexDigit (b.toNat / 16), hexDigit (b.toNat % 16)]

/-- Encoding of one byte under `form_urlencoded` byte serialization (used by
`serde_urlencoded`): space becomes `+`; ASCII alphanumerics and `*-._` are
kept; every other byte is percent-encoded. -/
def encodeByte (b : UInt8) : String :=
  if b = 32 then "+"
  else if (48 ≤ b.toNat ∧ b.toNat ≤ 57) ∨ (65 ≤ b.toNat ∧ b.toNat ≤ 90)
      ∨ (97 ≤ b.toNat ∧ b.toNat ≤ 122)
      ∨ b.toNat = 42 ∨ b.toNat = 45 ∨ b.toNat = 46 ∨ b.toNat = 95 then
    String.singleton (Char.ofNat b.toNat)
  else percentByte b

/-- The UTF-8 bytes of one character (standard UTF-8 encoding, written out so
that it evaluates inside the kernel). -/
def charUtf8 (c : Char) : List UInt8 :=
  let v := c.toNat
  if v < 0x80 then [UInt8.ofNat v]
  else if v < 0x800 then
    [UInt8.ofNat (0xC0 ||| (v >>> 6)), UInt8.ofNat (0x80 ||| (v &&& 0x3F))]
  else if v < 0x10000 then
    [UInt8.ofNat (0xE0 ||| (v >>> 12)), UInt8.ofNat (0x80 ||| ((v >>> 6) &&& 0x3F)),
      UInt8.ofNat (0x80 ||| (v &&& 0x3F))]
  else
    [UInt8.ofNat (0xF0 ||| (v >>> 18)), UInt8.ofNat (0x80 ||| ((v >>> 12) &&& 0x3F)),
      UInt8.ofNat (0x80 ||| ((v >>> 6) &&& 0x3F)), UInt8.ofNat (0x80 ||| (v &&& 0x3F))]

/-- Form-urlencoding of a string: encode each byte of its UTF-8 form. -/
def formUrlencode (s : String) : String :=
  String.join ((s.data.flatMap charUtf8).map encodeByte)

/-- One serialized `key=value` pair of a query string. -/
def queryPair (k v : String) : String :=
  formUrlencode k ++ "=" ++ formUrlencode v

/-- The options structs of `src/lib.rs` (camelCase serialization, `None`
fields skipped): `ListOptions`. -/
structure ListOptions where
  page : Option Nat := none
  per_page : Option Nat := none
  sort : Option String := none
  filter : Option String := none
  expand : Option String := none
  fields : Option String := none
  skip_total : Option Bool := none
deriving DecidableEq, Repr

/-- `ViewOptions` of `src/lib.rs`. -/
structure ViewOptions where
  expand : Option String := none
  fields : Option String := none
deriving DecidableEq, Repr

/-- `CreateOptions` of `src/lib.rs`. -/
structure CreateOptions where
  expand : Option String := none
  fields : Option String := none
deriving DecidableEq, Repr

/-- `UpdateOptions` of `src/lib.rs`. -/
structure UpdateOptions where
  expand : Option String := none
  fields : Option String := none
deriving DecidableEq, Repr

/-- `serde_urlencoded::to_string` on `ListOptions`: present fields in
declaration order, camelCase keys, `&`-separated. -/
def ListOptions.serialize (o : ListOptions) : String :=
  String.intercalate "&" <|
    (o.page.map fun v => queryPair "page" (toString v)).toList ++
    (o.per_page.map fun v => queryPair "perPage" (toString v)).toList ++
    (o.sort.map fun v => queryPair "sort" v).toList ++
    (o.filter.map fun v => queryPair "filter" v).toList ++
    (o.expand.map fun v => queryPair "expand" v).toList ++
    (o.fields.map fun v => queryPair "fields" v).toList ++
    (o.skip_total.map fun v => queryPair "skipTotal" (if v then "true" else "false")).toList

/-- `serde_urlencoded::to_string` on `CreateOptions`. -/
def CreateOptions.serialize (o : CreateOptions) : String :=
  String.intercalate "&" <|
    (o.expand.map fun v => queryPair "expand" v).toList ++
    (o.fields.map fun v => queryPair "fields" v).toList

/-- `serde_urlencoded::to_string` on `UpdateOptions`. -/
def UpdateOptions.serialize (o : UpdateOptions) : String :=
  String.intercalate "&" <|
    (o.expand.map fun v => queryPair "expand" v).toList ++
    (o.fields.map fun v => queryPair "fields" v).toList

/-! ### JSON rendering (`serde_json::to_string`) -/

/-- Escaping of one character inside a JSON string literal, as `serde_json`
produces it. -/
def jsonEscapeChar (c : Char) : String :=
  if c = '"' then "\\\""
  else if c = '\\' then "\\\\"
  else if c = '\x08' then "\\b"
  else if c = '\x0c' then "\\f"
  else if c = '\n' then "\\n"
  else if c = '\r' then "\\r"
  else if c = '\t' then "\\t"
  else if c.toNat < 32 then
    "\\u00" ++ String.mk [hexDigit (c.toNat / 16), hexDigit (c.toNat % 16)]
  else String.singleton c

/-- A JSON string literal with its quotes. -/
def jsonString (s : String) : String :=
  "\"" ++ String.join (s.data.map jsonEscapeChar) ++ "\""

mutual

/-- Compact rendering of a JSON value (`serde_json::to_string`). -/
def Json.render : Json → String
  | .null => "null"
  | .bool b => if b then "true" else "false"
  | .num n => toString n
  | .str s => jsonString s
  | .arr items => "[" ++ renderItems items ++ "]"
  | .obj fields => "\x7b" ++ renderFields fields ++ "\x7d"

/-- Comma-separated rendering of array items. -/
def Json.renderItems : List Json → String
  | [] => ""
  | [x] => x.render
  | x :: xs => x.render ++ "," ++ renderItems xs

/-- Comma-separated rendering of object fields. -/
def Json.renderFields : List (String × Json) → String
  | [] => ""
  | [(k, v)] => jsonString k ++ ":" ++ v.render
  | (k, v) :: xs => jsonString k ++ ":" ++ v.render ++ "," ++ renderFields xs

end

/-- Indentation by `n` spaces. -/
def spaces (n : Nat) : String :=
  String.mk (List.replicate n ' ')

mutual

/-- Pretty rendering of a JSON value (`serde_json::to_string_pretty`,
two-space indentation), at the given indentation level. -/
def Json.renderPretty (ind : Nat) : Json → String
  | .null => "null"
  | .bool b => if b then "true" else "false"
  | .num n => toString n
  | .str s => jsonString s
  | .arr [] => "[]"
  | .arr items =>
    "[\n" ++ renderItemsPretty (ind + 2) items ++ "\n" ++ spaces ind ++ "]"
  | .obj [] => "\x7b\x7d"
  | .obj fields =>
    "\x7b\n" ++ renderFieldsPretty (ind + 2) fields ++ "\n" ++ spaces ind ++ "\x7d"

/-- Pretty rendering of array items, one per line. -/
def Json.renderItemsPretty (ind : Nat) : List Json → String
  | [] => ""
  | [x] => spaces ind ++ x.renderPretty ind
  | x :: xs => spaces ind ++ x.renderPretty ind ++ ",\n" ++ renderItemsPretty ind xs

/-- Pretty rendering of object fields, one per line. -/
def Json.renderFieldsPretty (ind : Nat) : List (String × Json) → String
  | [] => ""
  | [(k, v)] => spaces ind ++ jsonString k ++ ": " ++ v.renderPretty ind
  | (k, v) :: xs =>
    spaces ind ++ jsonString k ++ ": " ++ v.renderPretty ind ++ ",\n"
      ++ renderFieldsPretty ind xs

end

/-! ### Record endpoints (`src/non_blocking/collection.rs`) -/

/-- The error body of a non-2xx record-endpoint response (`PocketBaseError`
in `src/lib.rs`). -/
structure PBError where
  status : Nat
  message : String
  data : Json

/-- The `Display` implementation of `PocketBaseError`:
`"[{status}] {message}: {data pretty-printed}"`. -/
def PBError.display (e : PBError) : String :=
  "[" ++ toString e.status ++ "] " ++ e.message ++ ": " ++ e.data.renderPretty 0

/-- `StatusCode::is_success`: 2xx. -/
def isSuccessStatus (status : Nat) : Bool :=
  200 ≤ status && status ≤ 299

/-- The paginated list shape (`Paginated<T>` in `src/lib.rs`, with the record
type instantiated to JSON values). -/
structure Paginated where
  page : Nat
  per_page : Nat
  total_items : Nat
  total_pages : Nat
  items : List Json

/-- Oracle for the main (non-auth) request of a decorated call: the transport
fails, or a response arrives with a status code and with the two possible
parses of its body (as `PocketBaseError` for the non-2xx branch and as the
payload type for the 2xx branch). -/
inductive MainOutcome where
  | ioError (message : String)
  | response (status : Nat) (errorBody : HttpOutcome PBError) (body : HttpOutcome Paginated)

/-- Result of a decorated `get_list` call: the returned value, the post-call
session state, all network requests issued (auth first, then the main
request if it was sent), and the number of `auth_refresh` invocations. -/
structure ListResult where
  result : Except Error Paginated
  state : PocketBase
  calls : List HttpRequest
  refreshes : Nat

namespace NonBlocking

/-- `CollectionBuilder::get_list` of `src/non_blocking/collection.rs`: build
the records URL, run the `authenticate` decorator (propagating its error),
fail with `Error::custom("client is not authorized")` when no bearer came
back, otherwise send the GET carrying the `Authorization` header and the
serialized options as query, then map the response exactly as the source
does. -/
def get_list (pb : PocketBase) (ident : String) (now : Time)
    (refreshResp : HttpOutcome AuthResult) (main : MainOutcome)
    (options : ListOptions) : ListResult :=
  let uri := pb.base_uri ++ "/api/collections/" ++ ident ++ "/records"
  let a := authenticate pb now refreshResp
  match a.result with
  | .error e => ⟨.error e, a.state, a.calls, a.refreshes⟩
  | .ok none =>
    ⟨.error (.Custom "client is not authorized"), a.state, a.calls, a.refreshes⟩
  | .ok (some bearer) =>
    let req : HttpRequest :=
      { method := "GET"
        url := uri ++ "?" ++ options.serialize
        headers := [("Authorization", bearer)] }
    match main with
    | .ioError msg => ⟨.error (.Custom msg), a.state, a.calls ++ [req], a.refreshes⟩
    | .response status errorBody body =>
      if !(isSuccessStatus status) then
        match errorBody with
        | .ioError msg => ⟨.error (.Custom msg), a.state, a.calls ++ [req], a.refreshes⟩
        | .ok e => ⟨.error (.Custom e.display), a.state, a.calls ++ [req], a.refreshes⟩
      else
        match body with
        | .ioError msg => ⟨.error (.Custom msg), a.state, a.calls ++ [req], a.refreshes⟩
        | .ok p => ⟨.ok p, a.state, a.calls ++ [req], a.refreshes⟩

end NonBlocking

/-! ### The isahc-based client (`src/client.rs`) -/

namespace Client

/-- A parsed base URL (`url::Url`): its origin (scheme and authority) and its
path part. Only what `Url::join` with the absolute-path references used by
this code needs is modelled. -/
structure Url where
  origin : String
  path : String
deriving DecidableEq, Repr

/-- `Url::join` for the references this code passes, which all begin with
`/`: an absolute-path reference replaces the base URL's path. -/
def Url.join (u : Url) (ref : String) : Url :=
  { u with path := ref }

/-- The serialized form of a URL. -/
def Url.render (u : Url) : String :=
  u.origin ++ u.path

/-- The stored token of `src/client.rs` (it additionally records the user
id). -/
structure Token where
  collection : String
  user : String
  auth : String
  expires : Time
  refreshable : Bool
  ty : String
deriving DecidableEq, Repr

/-- `Token::is_expired` of `src/client.rs`: `self.expires < Utc::now()`. -/
def Token.is_expired (t : Token) (now : Time) : Bool :=
  t.expires < now

/-- The unauthenticated client of `src/client.rs` (the `isahc::HttpClient`
field is the transport, not modelled as state). -/
structure Client where
  base_url : Url
deriving DecidableEq, Repr

/-- A request builder (`RequestBuilder` in `src/client.rs`): the method and
URL it was created with and the headers added so far, in order. -/
structure RequestBuilder where
  method : String
  url : String
  headers : List (String × String)
deriving DecidableEq, Repr

/-- `RequestBuilder::header`. -/
def RequestBuilder.header (rb : RequestBuilder) (k v : String) : RequestBuilder :=
  { rb with headers := rb.headers ++ [(k, v)] }

/-- `RequestBuilder::query`: serialize the options and replace the URL's
path-and-query by `"{path}?{query}"`. -/
def RequestBuilder.withQuery (rb : RequestBuilder) (query : String) : RequestBuilder :=
  { rb with url := rb.url ++ "?" ++ query }

/-- `PocketBaseClient::get` for `Client`: join the reference against the base
URL. -/
def Client.get (c : Client) (uri : String) : RequestBuilder :=
  { method := "GET", url := (c.base_url.join uri).render, headers := [] }

/-- `PocketBaseClient::post` for `Client`. -/
def Client.post (c : Client) (uri : String) : RequestBuilder :=
  { method := "POST", url := (c.base_url.join uri).render, headers := [] }

/-- `PocketBaseClient::patch` for `Client`. -/
def Client.patch (c : Client) (uri : String) : RequestBuilder :=
  { method := "PATCH", url := (c.base_url.join uri).render, headers := [] }

/-- `PocketBaseClient::delete` for `Client`. -/
def Client.delete (c : Client) (uri : String) : RequestBuilder :=
  { method := "DELETE", url := (c.base_url.join uri).render, headers := [] }

/-- The authenticated client of `src/client.rs`: a `Client` plus a `Token`
(note the token is not optional on this type). -/
structure AuthorizedClient where
  client : Client
  token : Token
deriving DecidableEq, Repr

/-- `AuthorizedClient::is_expired`. -/
def AuthorizedClient.is_expired (ac : AuthorizedClient) (now : Time) : Bool :=
  ac.token.is_expired now

/-- `PocketBaseClient::get` for `AuthorizedClient`: delegate to the inner
client and attach the stored bearer unconditionally. -/
def AuthorizedClient.get (ac : AuthorizedClient) (uri : String) : RequestBuilder :=
  (ac.client.get uri).header "Authorization" ac.token.auth

/-- `PocketBaseClient::post` for `AuthorizedClient`. -/
def AuthorizedClient.post (ac : AuthorizedClient) (uri : String) : RequestBuilder :=
  (ac.client.post uri).header "Authorization" ac.token.auth

/-- `PocketBaseClient::patch` for `AuthorizedClient`. -/
def AuthorizedClient.patch (ac : AuthorizedClient) (uri : String) : RequestBuilder :=
  (ac.client.patch uri).header "Authorization" ac.token.auth

/-- `PocketBaseClient::delete` for `AuthorizedClient`. -/
def AuthorizedClient.delete (ac : AuthorizedClient) (uri : String) : RequestBuilder :=
  (ac.client.delete uri).header "Authorization" ac.token.auth

/-- The auth endpoint response as `src/client.rs` deserializes it (its
`AuthResult` additionally carries the user record on success and field
errors on failure). -/
inductive AuthResult where
  | Error (status : Nat) (message : Option String) (data : List (String × FieldError))
  | Success (token : Jwt) (record : Json)

/-- Result of an `AuthorizedClient::refresh` call. -/
structure ACRefreshResult where
  result : Except Error Unit
  state : AuthorizedClient
  calls : List HttpRequest
deriving DecidableEq, Repr

/-- `AuthorizedClient::refresh` of `src/client.rs`: post to the auth-refresh
endpoint with the old bearer; on success decode the new bearer, read the user
id out of the returned record (`record.as_object().unwrap().get("id").unwrap().as_str().unwrap()`
— the `none` result models that panic) and assign a freshly built token; on
any failure return the error with the stored token untouched. -/
def AuthorizedClient.refresh (ac : AuthorizedClient) (resp : HttpOutcome AuthResult) :
    Option ACRefreshResult :=
  let t := ac.token
  let req : HttpRequest :=
    { method := "POST"
      url := (ac.client.base_url.join (refreshPath t.collection)).render
      headers := [("Authorization", t.auth)] }
  match resp with
  | .ioError msg => some ⟨.error (.Custom msg), ac, [req]⟩
  | .ok (.Error _ message _) =>
    some ⟨.error (.Custom (message.getD "failed to authenticate user")), ac, [req]⟩
  | .ok (.Success jwt record) =>
    match jwt.payload with
    | .error e => some ⟨.error (.Custom e), ac, [req]⟩
    | .ok claims =>
      match record.getStrField "id" with
      | none => none
      | some uid =>
        some ⟨.ok (),
          { ac with
            token :=
              { user := uid
                collection := t.collection
                auth := jwt.raw
                refreshable := claims.refreshable
                ty := claims.ty
                expires := timestamp claims.exp } },
          [req]⟩

end Client

/-! ### Batch requests (`src/lib.rs` and `src/batch.rs`) -/

/-- Path of the records endpoint for a collection. -/
def recordsPath (collection : String) : String :=
  "/api/collections/" ++ collection ++ "/records"

/-- A queued batch request (`BatchRequest` in `src/lib.rs`); file paths are
modelled as strings. -/
inductive BatchRequest where
  | Create (collection : String) (record : Json) (files : List (String × String))
      (options : CreateOptions)
  | Update (collection : String) (id : String) (record : Json)
      (files : List (String × String)) (options : UpdateOptions)
  | Delete (collection : String) (id : String)

/-- `BatchRequest::request` of `src/lib.rs`: the JSON envelope of one queued
request, with the `?query` suffix exactly when the serialized options are
non-empty. -/
def BatchRequest.request : BatchRequest → Json
  | .Create collection record _ options =>
    let query := options.serialize
    let url :=
      if query.isEmpty then recordsPath collection
      else recordsPath collection ++ "?" ++ query
    .obj [("method", .str "POST"), ("url", .str url), ("body", record)]
  | .Update collection id record _ options =>
    let query := options.serialize
    let url :=
      if query.isEmpty then recordsPath collection ++ "/" ++ id
      else recordsPath collection ++ "/" ++ id ++ "?" ++ query
    .obj [("method", .str "PATCH"), ("url", .str url), ("body", record)]
  | .Delete collection id =>
    .obj [("method", .str "DELETE"), ("url", .str (recordsPath collection ++ "/" ++ id))]

/-- `BatchRequest::files` of `src/lib.rs`: `Some` of the file map exactly
when it is non-empty. -/
def BatchRequest.filesOpt : BatchRequest → Option (List (String × String))
  | .Create _ _ files _ => if files.isEmpty then none else some files
  | .Update _ _ _ files _ => if files.isEmpty then none else some files
  | .Delete _ _ => none

/-- The outgoing batch call built by `BatchBuilder::send` of `src/batch.rs`:
the JSON payload, the multipart form's parts (the `@jsonPayload` text part
first, then one part per attached file), and the request it is posted
with. -/
structure BatchSend where
  payload : Json
  parts : List (String × String)
  request : Client.RequestBuilder

/-- `BatchBuilder::send` of `src/batch.rs` (up to handing the form to the
transport): fold the queue in order into the envelope list and the file
list, serialize `{"requests": [...]}` into the `@jsonPayload` form field, and
post the form to `/api/batch` through the client's `post` (passed as the
`PocketBaseClient` capability). -/
def BatchBuilder.send (post : String → Client.RequestBuilder)
    (requests : List BatchRequest) : BatchSend :=
  let payload := Json.obj [("requests", Json.arr (requests.map BatchRequest.request))]
  let fileParts := (requests.map fun r => (BatchRequest.filesOpt r).getD []).flatten
  { payload := payload
    parts := ("@jsonPayload", payload.render) :: fileParts
    request := post "/api/batch" }

/-! ### Correspondence between the duplicated implementations -/

/-- Forget the `user` field of a `src/client.rs` token, giving the
`src/lib.rs` token with the same shared fields. -/
def Client.Token.toCore (t : Client.Token) : Pocket.Token :=
  { auth := t.auth
    expires := t.expires
    refreshable := t.refreshable
    ty := t.ty
    collection := t.collection }

/-- Forget the response parts only `src/client.rs` deserializes (the user
record on success, the field errors on failure), giving the `src/lib.rs`
view of the same server response. -/
def Client.AuthResult.toCore : Client.AuthResult → Pocket.AuthResult
  | .Error status message _ => Pocket.AuthResult.Error status message none
  | .Success token _ => Pocket.AuthResult.Success token

/-- The same forgetting, lifted over the transport outcome. -/
def Client.respToCore : HttpOutcome Client.AuthResult → HttpOutcome Pocket.AuthResult
  | .ioError m => .ioError m
  | .ok r => .ok r.toCore

/-! ### Sample data for witnesses and counterexamples -/

/-- Sample decoded JWT claims (expiry at timestamp 200). -/
def sampleClaims : Claims :=
  { id := "rec1", collectionId := "col1", exp := 200, refreshable := true, ty := "auth" }

/-- A sample fresh bearer whose payload decodes to `sampleClaims`. -/
def sampleJwt : Jwt :=
  { raw := "newbearer", payload := .ok sampleClaims }

/-- A sample stored token (bearer "oldbearer", expiry at timestamp 100). -/
def sampleToken : Token :=
  { auth := "oldbearer", expires := 100, refreshable := true, ty := "auth",
    collection := "users" }

/-- A session holding `sampleToken`. -/
def samplePB : PocketBase :=
  { base_uri := "http://pb.local", token := some sampleToken }

/-- A session holding no token. -/
def samplePBNone : PocketBase :=
  { base_uri := "http://pb.local", token := none }

/-- The `src/client.rs` counterpart of `sampleToken`. -/
def sampleCToken : Client.Token :=
  { collection := "users", user := "u0", auth := "oldbearer", expires := 100,
    refreshable := true, ty := "auth" }

/-- An `AuthorizedClient` holding `sampleCToken`. -/
def sampleAC : Client.AuthorizedClient :=
  { client := { base_url := { origin := "http://pb.local", path := "/" } }
    token := sampleCToken }

/-! ## Theorems for the claims -/

/-- C2 (counterexample): `auth_refresh` on a session with no token does fail
and performs no network call, but the error is the `Custom` variant with the
message "unauthorized client; try running a auth_with_* method first" — not
the dedicated `Unauthorized` (spec: `Unauthenticated`) variant the claim
names. -/
theorem C2_counterexample :
    (Blocking.auth_refresh samplePBNone (.ioError "unused")).result
        = .error (.Custom "unauthorized client; try running a auth_with_* method first")
    ∧ (Blocking.auth_refresh samplePBNone (.ioError "unused")).result
        ≠ .error Error.Unauthorized := by
  constructor
  · rfl
  · decide

/-- C2 (amended): `auth_refresh` on a session with no token always fails with
`Error::Custom("unauthorized client; try running a auth_with_* method first")`
(not a dedicated unauthenticated variant), performs no network call, and
leaves the session unchanged — in both the blocking and the non-blocking
implementation, for every transport behaviour. -/
theorem C2_refresh_no_token (pb : PocketBase) (resp : HttpOutcome AuthResult)
    (h : pb.token = none) :
    Blocking.auth_refresh pb resp =
      ⟨.error (.Custom "unauthorized client; try running a auth_with_* method first"), pb, []⟩
    ∧ NonBlocking.auth_refresh pb resp =
      ⟨.error (.Custom "unauthorized client; try running a auth_with_* method first"), pb, []⟩ := by
  constructor <;> simp [Blocking.auth_refresh, NonBlocking.auth_refresh, h]

/-- C2 (witness): the no-token refresh behaviour at a concrete session and a
concrete transport outcome. -/
theorem C2_witness :
    Pocket.Blocking.auth_refresh samplePBNone (.ioError "unused") =
      ⟨.error (.Custom "unauthorized client; try running a auth_with_* method first"),
        samplePBNone, []⟩ :=
  (C2_refresh_no_token samplePBNone (.ioError "unused") rfl).1

/-- C3 (counterexample): at the exact boundary `now = expires`, `is_valid` is
`false` (the token does not count as valid) but `Token::is_expired` is also
`false` (the token does not count as expired either) — refuting the claim's
"equivalently, the token counts as expired at the boundary". -/
theorem C3_counterexample :
    Blocking.is_valid samplePB 100 = false
    ∧ Client.Token.is_expired sampleCToken 100 = false := by
  decide

/-- C3 (amended): `PocketBase::is_valid` decides validity by the strict
comparison `now < expires` (no buffer or skew margin), so at the boundary
`now = expires` it evaluates `false`; `Token::is_expired` however uses the
strict comparison `expires < now` in the other direction, so at the boundary
the token does not count as expired: `is_valid` and the negation of
`is_expired` disagree exactly at the boundary. -/
theorem C3_validity_strict :
    (∀ (pb : PocketBase) (t : Token) (now : Time), pb.token = some t →
      (Blocking.is_valid pb now = true ↔ now < t.expires)) ∧
    (∀ (pb : PocketBase) (t : Token) (now : Time), pb.token = some t →
      (NonBlocking.is_valid pb now = true ↔ now < t.expires)) ∧
    (∀ (t : Client.Token) (now : Time), t.is_expired now = true ↔ t.expires < now) ∧
    (∀ (pb : PocketBase) (t : Token), pb.token = some t →
      Blocking.is_valid pb t.expires = false) ∧
    (∀ t : Client.Token, t.is_expired t.expires = false) := by
  refine ⟨?_, ?_, ?_, ?_, ?_⟩
  · intro pb t now h; simp [Blocking.is_valid, h]
  · intro pb t now h; simp [NonBlocking.is_valid, h]
  · intro t now; simp [Client.Token.is_expired]
  · intro pb t h; simp [Blocking.is_valid, h]
  · intro t; simp [Client.Token.is_expired]

/-- C3 (witness): the strict-comparison facts at a concrete session and
token. -/
theorem C3_witness :
    (Blocking.is_valid samplePB 99 = true ↔ (99 : Int) < 100)
    ∧ Blocking.is_valid samplePB 100 = false
    ∧ Client.Token.is_expired sampleCToken 100 = false :=
  ⟨C3_validity_strict.1 samplePB sampleToken 99 rfl,
    C3_validity_strict.2.2.2.1 samplePB sampleToken rfl,
    C3_validity_strict.2.2.2.2 sampleCToken⟩

/-- C1 (counterexample): for a session holding no token, the decorated
`get_list` call is not sent unauthenticated — it fails with
`Error::Custom("client is not authorized")` and issues no network request at
all. -/
theorem C1_counterexample :
    (NonBlocking.get_list samplePBNone "posts" 0 (.ioError "unused") (.ioError "unused")
        ({} : ListOptions)).result = .error (.Custom "client is not authorized")
    ∧ (NonBlocking.get_list samplePBNone "posts" 0 (.ioError "unused") (.ioError "unused")
        ({} : ListOptions)).calls = [] := by
  constructor <;> rfl

/-- C1 (amended): for a decorated request-sending call — if a token exists and
`is_valid()` is false, `refresh` is called first and its error is propagated;
afterwards the `Authorization` header with the (possibly refreshed) bearer is
attached when a token exists; but when no token exists the call fails with
`Error::Custom("client is not authorized")` without sending any request,
rather than going out unauthenticated. Stated for `get_list` (the cited call
site) and the non-blocking decorator; a valid token short-circuits the
decorator entirely. -/
theorem C1_decorated_call :
    (∀ (pb : PocketBase) (now : Time) (resp : HttpOutcome AuthResult) (e : Error),
      pb.token.isSome = true → NonBlocking.is_valid pb now = false →
      (NonBlocking.auth_refresh pb resp).result = .error e →
        (NonBlocking.authenticate pb now resp).result = .error e
        ∧ (NonBlocking.authenticate pb now resp).refreshes = 1) ∧
    (∀ (pb : PocketBase) (ident : String) (now : Time) (resp : HttpOutcome AuthResult)
        (main : MainOutcome) (o : ListOptions) (bearer : String),
      (NonBlocking.authenticate pb now resp).result = .ok (some bearer) →
        (NonBlocking.get_list pb ident now resp main o).calls =
          (NonBlocking.authenticate pb now resp).calls ++
            [⟨"GET",
              pb.base_uri ++ "/api/collections/" ++ ident ++ "/records" ++ "?" ++ o.serialize,
              [("Authorization", bearer)]⟩]) ∧
    (∀ (pb : PocketBase) (ident : String) (now : Time) (resp : HttpOutcome AuthResult)
        (main : MainOutcome) (o : ListOptions),
      pb.token = none →
        (NonBlocking.get_list pb ident now resp main o).result
            = .error (.Custom "client is not authorized")
        ∧ (NonBlocking.get_list pb ident now resp main o).calls = []) ∧
    (∀ (pb : PocketBase) (now : Time) (resp : HttpOutcome AuthResult),
      NonBlocking.is_valid pb now = true →
        NonBlocking.authenticate pb now resp = ⟨.ok (pb.token.map Token.auth), pb, [], 0⟩) := by
  refine ⟨?_, ?_, ?_, ?_⟩
  · intro pb now resp e hsome hstale herr
    simp [NonBlocking.authenticate, hsome, hstale, herr]
  · intro pb ident now resp main o bearer hok
    rcases main with msg | ⟨status, errorBody, body⟩
    · simp [NonBlocking.get_list, hok]
    · rcases errorBody with em | ev <;> rcases body with bm | bv <;>
        simp [NonBlocking.get_list, hok] <;> split <;> simp
  · intro pb ident now resp main o hnone
    constructor <;> simp [NonBlocking.get_list, NonBlocking.authenticate, hnone]
  · intro pb now resp hvalid
    simp [NonBlocking.authenticate, hvalid]

/-- C1 (witness): the decorator contract at concrete inputs — a stale token
propagates the refresh failure; a valid token sends the main request with the
stored bearer attached; a token-less session fails without sending. -/
theorem C1_witness :
    ((NonBlocking.authenticate samplePB 150 (.ioError "connection refused")).result
        = .error (.Custom "connection refused")
      ∧ (NonBlocking.authenticate samplePB 150 (.ioError "connection refused")).refreshes = 1)
    ∧ (NonBlocking.get_list samplePB "posts" 50 (.ioError "unused")
          (.response 200 (.ioError "unused") (.ok ⟨1, 30, 0, 0, []⟩)) ({} : ListOptions)).calls
        = [⟨"GET", "http://pb.local/api/collections/posts/records?",
            [("Authorization", "oldbearer")]⟩]
    ∧ (NonBlocking.get_list samplePBNone "posts" 0 (.ioError "unused") (.ioError "unused")
          ({} : ListOptions)).result = .error (.Custom "client is not authorized")
    ∧ NonBlocking.authenticate samplePB 50 (.ioError "unused")
        = ⟨.ok (some "oldbearer"), samplePB, [], 0⟩ := by
  refine ⟨C1_decorated_call.1 samplePB 150 (.ioError "connection refused")
      (.Custom "connection refused") (by decide) (by decide) (by decide), ?_, ?_, ?_⟩
  · have h := C1_decorated_call.2.1 samplePB "posts" 50 (.ioError "unused")
      (.response 200 (.ioError "unused") (.ok ⟨1, 30, 0, 0, []⟩)) ({} : ListOptions)
      "oldbearer" (by decide)
    simpa using h
  · exact (C1_decorated_call.2.2.1 samplePBNone "posts" 0 (.ioError "unused")
      (.ioError "unused") ({} : ListOptions) rfl).1
  · exact C1_decorated_call.2.2.2 samplePB 50 (.ioError "unused") (by decide)

/-- C4 (counterexample): a session holding a token that receives an explicit
error response from `refresh()` does NOT still hold a token afterwards: the
`token.take()` at the start of `auth_refresh` is never undone on the error
path, so the session transitions back to the token-absent state. -/
theorem C4_counterexample :
    (Blocking.auth_refresh samplePB
        (.ok (.Error 401 (some "The request requires valid record authorization token") none))).result
      = .error (.Custom "The request requires valid record authorization token")
    ∧ (Blocking.auth_refresh samplePB
        (.ok (.Error 401 (some "The request requires valid record authorization token") none))).state.token
      = none := by
  constructor <;> rfl

/-- C4 (amended): for a `PocketBase` session holding a token, `auth_refresh`
ends with a token exactly when it succeeds: on success the session holds the
new token, while on any failure — explicit error response, transport failure
or bearer-decode failure — the session holds no token (the `take()` is not
undone), so a failed refresh cannot be retried without re-authenticating.
`AuthorizedClient::refresh` by contrast leaves its stored token untouched on
every error path (and its token slot is not optional, so that session always
holds a token). -/
theorem C4_refresh_post_state :
    (∀ (pb : PocketBase) (t : Token) (resp : HttpOutcome AuthResult), pb.token = some t →
      ((Blocking.auth_refresh pb resp).result.isOk = true
          ↔ (Blocking.auth_refresh pb resp).state.token.isSome = true)
        ∧ (∀ e : Error, (Blocking.auth_refresh pb resp).result = .error e →
            (Blocking.auth_refresh pb resp).state.token = none)) ∧
    (∀ (pb : PocketBase) (t : Token) (resp : HttpOutcome AuthResult), pb.token = some t →
      (∀ e : Error, (NonBlocking.auth_refresh pb resp).result = .error e →
        (NonBlocking.auth_refresh pb resp).state.token = none)) ∧
    (∀ (ac : Client.AuthorizedClient) (resp : HttpOutcome Client.AuthResult)
        (out : Client.ACRefreshResult), ac.refresh resp = some out →
      ∀ e : Error, out.result = .error e → out.state = ac) := by
  refine ⟨?_, ?_, ?_⟩
  · intro pb t resp h
    rcases resp with msg | r
    · simp [Blocking.auth_refresh, h, Except.isOk, Except.toBool]
    · rcases r with ⟨status, message, data⟩ | jwt
      · simp [Blocking.auth_refresh, h, Except.isOk, Except.toBool]
      · rcases hp : jwt.payload with e | claims <;>
          simp [Blocking.auth_refresh, h, hp, Except.isOk, Except.toBool]
  · intro pb t resp h
    rcases resp with msg | r
    · simp [NonBlocking.auth_refresh, h]
    · rcases r with ⟨status, message, data⟩ | jwt
      · simp [NonBlocking.auth_refresh, h]
      · rcases hp : jwt.payload with e | claims <;>
          simp [NonBlocking.auth_refresh, h, hp]
  · intro ac resp out hout e herr
    rcases resp with msg | r
    · simp [Client.AuthorizedClient.refresh] at hout
      subst hout
      rfl
    · rcases r with ⟨status, message, data⟩ | ⟨jwt, record⟩
      · simp [Client.AuthorizedClient.refresh] at hout
        subst hout
        rfl
      · rcases hp : jwt.payload with pe | claims
        · simp [Client.AuthorizedClient.refresh, hp] at hout
          subst hout
          rfl
        · rcases hid : record.getStrField "id" with _ | uid <;>
            simp [Client.AuthorizedClient.refresh, hp, hid] at hout
          subst hout
          simp at herr

/-- C4 (witness): the amended refresh/post-state relationship at concrete
inputs — a successful refresh leaves a (new) token, a transport failure
leaves none, and `AuthorizedClient` keeps its token through an error
response. -/
theorem C4_witness :
    ((Blocking.auth_refresh samplePB (.ok (.Success sampleJwt))).result.isOk = true
      ↔ (Blocking.auth_refresh samplePB (.ok (.Success sampleJwt))).state.token.isSome = true)
    ∧ (Blocking.auth_refresh samplePB (.ioError "connection refused")).state.token = none
    ∧ ((Client.AuthorizedClient.refresh sampleAC
          (.ok (.Error 401 (some "bad token") []))).map Client.ACRefreshResult.state)
        = some sampleAC := by
  refine ⟨(C4_refresh_post_state.1 samplePB sampleToken (.ok (.Success sampleJwt)) rfl).1,
    (C4_refresh_post_state.1 samplePB sampleToken (.ioError "connection refused") rfl).2
      (.Custom "connection refused") (by decide), ?_⟩
  have h := C4_refresh_post_state.2.2 sampleAC (.ok (.Error 401 (some "bad token") []))
    ⟨.error (.Custom "bad token"), sampleAC,
      [⟨"POST", "http://pb.local/api/collections/users/auth-refresh",
        [("Authorization", "oldbearer")]⟩]⟩ (by decide) (.Custom "bad token") (by decide)
  decide

/-- C5 (counterexample): a refresh that receives an explicit error response
fails with the opaque `Custom` variant carrying the server message — not with
the structured `Authorization` (spec: `Authentication`) variant the claim
names. -/
theorem C5_counterexample :
    (Blocking.auth_refresh samplePB (.ok (.Error 400 (some "Failed to authenticate.") none))).result
      = .error (.Custom "Failed to authenticate.") := by
  rfl

/-- C5 (amended): for a session holding a token, a refresh that receives an
explicit error response fails with `Error::Custom` carrying the server's
message (defaulting to "failed to authenticate user" when the response has
none); the structured `Authorization { message, data }` variant and the field
errors are not used by any of the three refresh implementations. -/
theorem C5_refresh_error_variant :
    (∀ (pb : PocketBase) (t : Token) (status : Nat) (message : Option String)
        (data : Option Json), pb.token = some t →
      (Blocking.auth_refresh pb (.ok (.Error status message data))).result
        = .error (.Custom (message.getD "failed to authenticate user"))) ∧
    (∀ (pb : PocketBase) (t : Token) (status : Nat) (message : Option String)
        (data : Option Json), pb.token = some t →
      (NonBlocking.auth_refresh pb (.ok (.Error status message data))).result
        = .error (.Custom (message.getD "failed to authenticate user"))) ∧
    (∀ (ac : Client.AuthorizedClient) (status : Nat) (message : Option String)
        (data : List (String × FieldError)),
      (Client.AuthorizedClient.refresh ac (.ok (.Error status message data))).map
          Client.ACRefreshResult.result
        = some (.error (.Custom (message.getD "failed to authenticate user")))) := by
  refine ⟨?_, ?_, ?_⟩
  · intro pb t status message data h
    simp [Blocking.auth_refresh, h]
  · intro pb t status message data h
    simp [NonBlocking.auth_refresh, h]
  · intro ac status message data
    simp [Client.AuthorizedClient.refresh]

/-- C5 (witness): the error-variant behaviour at a concrete session and a
concrete error response. -/
theorem C5_witness :
    (Blocking.auth_refresh samplePB (.ok (.Error 400 (some "Failed to authenticate.") none))).result
      = .error (.Custom "Failed to authenticate.") :=
  C5_refresh_error_variant.1 samplePB sampleToken 400 (some "Failed to authenticate.") none rfl

/-- C6 (counterexample): a successful refresh whose server response carries
the very same bearer string leaves the stored bearer unchanged — the claim
that "the new bearer differs from the pre-refresh bearer" does not follow
from the code. -/
theorem C6_counterexample :
    (Blocking.auth_refresh samplePB
        (.ok (.Success ⟨"oldbearer", .ok sampleClaims⟩))).result = .ok ()
    ∧ (Blocking.auth_refresh samplePB
        (.ok (.Success ⟨"oldbearer", .ok sampleClaims⟩))).state.token.map Token.auth
      = some "oldbearer"
    ∧ samplePB.token.map Token.auth = some "oldbearer" := by
  refine ⟨rfl, rfl, rfl⟩

/-- C6 (amended): on a successful refresh the stored token is replaced
wholesale by a new `Token` built from the unverified decode of the server's
returned bearer (expiry from `exp`, `refreshable` flag, `type`), keeping the
prior collection name; the new bearer equals the server-returned string — so
it differs from the pre-refresh bearer exactly when the server returns a
different string — and `is_valid()` is true immediately afterward if and only
if the decoded expiry lies in the future. -/
theorem C6_refresh_success :
    (∀ (pb : PocketBase) (t : Token) (jwt : Jwt) (claims : Claims),
      pb.token = some t → jwt.payload = .ok claims →
        Blocking.auth_refresh pb (.ok (.Success jwt)) =
          ⟨.ok (),
            { base_uri := pb.base_uri
              token := some
                { collection := t.collection
                  auth := jwt.raw
                  refreshable := claims.refreshable
                  ty := claims.ty
                  expires := timestamp claims.exp } },
            [⟨"POST", pb.base_uri ++ refreshPath t.collection, [("Authorization", t.auth)]⟩]⟩) ∧
    (∀ (pb : PocketBase) (t : Token) (jwt : Jwt) (claims : Claims),
      pb.token = some t → jwt.payload = .ok claims →
        NonBlocking.auth_refresh pb (.ok (.Success jwt)) =
          Blocking.auth_refresh pb (.ok (.Success jwt))) ∧
    (∀ (pb : PocketBase) (t : Token) (jwt : Jwt) (claims : Claims) (now : Time),
      pb.token = some t → jwt.payload = .ok claims →
        (Blocking.is_valid (Blocking.auth_refresh pb (.ok (.Success jwt))).state now = true
          ↔ now < timestamp claims.exp)) := by
  refine ⟨?_, ?_, ?_⟩
  · intro pb t jwt claims h hp
    simp [Blocking.auth_refresh, h, hp]
  · intro pb t jwt claims h hp
    simp [Blocking.auth_refresh, NonBlocking.auth_refresh, h, hp]
  · intro pb t jwt claims now h hp
    simp [Blocking.auth_refresh, Blocking.is_valid, h, hp]

/-- C6 (witness): a concrete successful refresh — the stored token is rebuilt
from the decoded claims with the old collection name, and validity holds
before the new expiry. -/
theorem C6_witness :
    Blocking.auth_refresh samplePB (.ok (.Success sampleJwt)) =
      ⟨.ok (),
        { base_uri := "http://pb.local"
          token := some
            { collection := "users", auth := "newbearer", refreshable := true,
              ty := "auth", expires := 200 } },
        [⟨"POST", "http://pb.local/api/collections/users/auth-refresh",
          [("Authorization", "oldbearer")]⟩]⟩
    ∧ (Blocking.is_valid (Blocking.auth_refresh samplePB (.ok (.Success sampleJwt))).state 150 = true
        ↔ (150 : Int) < timestamp 200) :=
  ⟨C6_refresh_success.1 samplePB sampleToken sampleJwt sampleClaims rfl rfl,
    C6_refresh_success.2.2 samplePB sampleToken sampleJwt sampleClaims 150 rfl rfl⟩

/-- A decorated `get_list` makes exactly the `auth_refresh` invocations its
`authenticate` step makes. -/
theorem get_list_refreshes_eq (pb : PocketBase) (ident : String) (now : Time)
    (resp : HttpOutcome AuthResult) (main : MainOutcome) (o : ListOptions) :
    (NonBlocking.get_list pb ident now resp main o).refreshes
      = (NonBlocking.authenticate pb now resp).refreshes := by
  rcases h : (NonBlocking.authenticate pb now resp).result with e | tok
  · simp [NonBlocking.get_list, h]
  · rcases tok with _ | bearer
    · simp [NonBlocking.get_list, h]
    · rcases main with msg | ⟨status, eb, bb⟩
      · simp [NonBlocking.get_list, h]
      · rcases eb with em | ev <;> rcases bb with bm | bv <;>
          simp [NonBlocking.get_list, h] <;> split <;> simp

/-- The decorator makes at most one `auth_refresh` invocation
(non-blocking). -/
theorem authenticate_refreshes_le_one (pb : PocketBase) (now : Time)
    (resp : HttpOutcome AuthResult) :
    (NonBlocking.authenticate pb now resp).refreshes ≤ 1 := by
  by_cases h : pb.token.isSome && !(NonBlocking.is_valid pb now) <;>
    cases hr : (NonBlocking.auth_refresh pb resp).result <;>
      simp [NonBlocking.authenticate, h, hr]

/-- C7: the decorator (`ExtendAuth::authenticate`) invokes `auth_refresh` at
most once per decorated call, and does so only when a token was present and
`is_valid()` was false at entry; each `auth_refresh` invocation on a session
holding a token performs exactly one network call (and never more than one in
any case, i.e. no retry); hence a decorated `get_list` makes at most one
authentication refresh. -/
theorem C7_single_refresh :
    (∀ (pb : PocketBase) (now : Time) (resp : HttpOutcome AuthResult),
      (Blocking.authenticate pb now resp).refreshes ≤ 1) ∧
    (∀ (pb : PocketBase) (now : Time) (resp : HttpOutcome AuthResult),
      (Blocking.authenticate pb now resp).refreshes = 1 →
        pb.token.isSome = true ∧ Blocking.is_valid pb now = false) ∧
    (∀ (pb : PocketBase) (t : Token) (resp : HttpOutcome AuthResult), pb.token = some t →
      (Blocking.auth_refresh pb resp).calls.length = 1) ∧
    (∀ (pb : PocketBase) (resp : HttpOutcome AuthResult),
      (Blocking.auth_refresh pb resp).calls.length ≤ 1) ∧
    (∀ (pb : PocketBase) (ident : String) (now : Time) (resp : HttpOutcome AuthResult)
        (main : MainOutcome) (o : ListOptions),
      (NonBlocking.get_list pb ident now resp main o).refreshes ≤ 1) := by
  refine ⟨?_, ?_, ?_, ?_, ?_⟩
  · intro pb now resp
    by_cases h : pb.token.isSome && !(Blocking.is_valid pb now) <;>
      cases hr : (Blocking.auth_refresh pb resp).result <;>
        simp [Blocking.authenticate, h, hr]
  · intro pb now resp hone
    by_cases h : pb.token.isSome && !(Blocking.is_valid pb now)
    · simpa using h
    · cases hr : (Blocking.auth_refresh pb resp).result <;>
        simp [Blocking.authenticate, h, hr] at hone
  · intro pb t resp h
    rcases resp with msg | r
    · simp [Blocking.auth_refresh, h]
    · rcases r with ⟨status, message, data⟩ | jwt
      · simp [Blocking.auth_refresh, h]
      · rcases hp : jwt.payload with e | claims <;> simp [Blocking.auth_refresh, h, hp]
  · intro pb resp
    rcases h : pb.token with _ | t
    · simp [Blocking.auth_refresh, h]
    · rcases resp with msg | r
      · simp [Blocking.auth_refresh, h]
      · rcases r with ⟨status, message, data⟩ | jwt
        · simp [Blocking.auth_refresh, h]
        · rcases hp : jwt.payload with e | claims <;> simp [Blocking.auth_refresh, h, hp]
  · intro pb ident now resp main o
    rw [get_list_refreshes_eq]
    exact authenticate_refreshes_le_one pb now resp

/-- C7 (witness): the single-refresh discipline at concrete inputs — a stale
session refreshes once (and the refresh makes exactly one network call), and
the count is below one for a decorated call on a fresh session. -/
theorem C7_witness :
    (Blocking.authenticate samplePB 150 (.ioError "unused")).refreshes ≤ 1
    ∧ (samplePB.token.isSome = true ∧ Blocking.is_valid samplePB 150 = false)
    ∧ (Blocking.auth_refresh samplePB (.ioError "unused")).calls.length = 1
    ∧ (NonBlocking.get_list samplePB "posts" 50 (.ioError "unused") (.ioError "unused")
        ({} : ListOptions)).refreshes ≤ 1 :=
  ⟨C7_single_refresh.1 samplePB 150 (.ioError "unused"),
    C7_single_refresh.2.1 samplePB 150 (.ioError "unused") (by decide),
    C7_single_refresh.2.2.1 samplePB sampleToken (.ioError "unused") rfl,
    C7_single_refresh.2.2.2.2 samplePB "posts" 50 (.ioError "unused") (.ioError "unused")
      ({} : ListOptions)⟩

/-- C8 (counterexample): the three refresh implementations do NOT exhibit the
same post-error session state. For the same stored token (`sampleToken` is
`sampleCToken` without its `user` field), the same base origin and the same
explicit error response, `PocketBase::auth_refresh` ends with no token while
`AuthorizedClient::refresh` keeps the old token — even though both return the
same error value. -/
theorem C8_counterexample :
    (Blocking.auth_refresh samplePB (.ok (.Error 401 (some "e") none))).result
        = .error (.Custom "e")
    ∧ (Client.AuthorizedClient.refresh sampleAC (.ok (.Error 401 (some "e") []))).map
        Client.ACRefreshResult.result = some (.error (.Custom "e"))
    ∧ (Blocking.auth_refresh samplePB (.ok (.Error 401 (some "e") none))).state.token = none
    ∧ (Client.AuthorizedClient.refresh sampleAC (.ok (.Error 401 (some "e") []))).map
        (fun out => out.state.token) = some sampleCToken
    ∧ sampleCToken.toCore = sampleToken := by
  refine ⟨rfl, rfl, rfl, rfl, rfl⟩

/-- C8 (amended): the blocking and non-blocking `PocketBase::auth_refresh`
are the same function; and `AuthorizedClient::refresh` (when it does not
panic extracting the user id from the returned record) builds the identical
refresh request for the same base origin, returns the same error or success
outcome for the same server response, and on success stores a token agreeing
with the `PocketBase` one on all shared fields — but the implementations do
NOT agree on the post-error session state: `PocketBase` drops its token on
any failure while `AuthorizedClient` keeps the previous one. -/
theorem C8_refresh_equivalence :
    (∀ (pb : PocketBase) (resp : HttpOutcome AuthResult),
      NonBlocking.auth_refresh pb resp = Blocking.auth_refresh pb resp) ∧
    (∀ (ac : Client.AuthorizedClient) (resp : HttpOutcome Client.AuthResult)
        (out : Client.ACRefreshResult), ac.refresh resp = some out →
      out.calls
          = (Blocking.auth_refresh ⟨ac.client.base_url.origin, some ac.token.toCore⟩
              (Client.respToCore resp)).calls
        ∧ out.result
          = (Blocking.auth_refresh ⟨ac.client.base_url.origin, some ac.token.toCore⟩
              (Client.respToCore resp)).result
        ∧ (out.result = .ok () →
            (Blocking.auth_refresh ⟨ac.client.base_url.origin, some ac.token.toCore⟩
                (Client.respToCore resp)).state.token = some out.state.token.toCore)) := by
  constructor
  · intro pb resp
    rcases h : pb.token with _ | t
    · simp [Blocking.auth_refresh, NonBlocking.auth_refresh, h]
    · rcases resp with msg | r
      · simp [Blocking.auth_refresh, NonBlocking.auth_refresh, h]
      · rcases r with ⟨status, message, data⟩ | jwt
        · simp [Blocking.auth_refresh, NonBlocking.auth_refresh, h]
        · rcases hp : jwt.payload with e | claims <;>
            simp [Blocking.auth_refresh, NonBlocking.auth_refresh, h, hp]
  · intro ac resp out hout
    rcases resp with msg | r
    · simp [Client.AuthorizedClient.refresh] at hout
      subst hout
      refine ⟨rfl, rfl, ?_⟩
      intro hok
      simp at hok
    · rcases r with ⟨status, message, data⟩ | ⟨jwt, record⟩
      · simp [Client.AuthorizedClient.refresh] at hout
        subst hout
        refine ⟨rfl, rfl, ?_⟩
        intro hok
        simp at hok
      · rcases hp : jwt.payload with pe | claims
        · simp [Client.AuthorizedClient.refresh, hp] at hout
          subst hout
          refine ⟨?_, ?_, ?_⟩
          · simp [Blocking.auth_refresh, Client.respToCore, Client.AuthResult.toCore,
              Client.Token.toCore, Client.Url.join, Client.Url.render, refreshPath, hp]
          · simp [Blocking.auth_refresh, Client.respToCore, Client.AuthResult.toCore,
              Client.Token.toCore, hp]
          · intro hok
            simp at hok
        · rcases hid : record.getStrField "id" with _ | uid <;>
            simp [Client.AuthorizedClient.refresh, hp, hid] at hout
          subst hout
          refine ⟨?_, ?_, ?_⟩
          · simp [Blocking.auth_refresh, Client.respToCore, Client.AuthResult.toCore,
              Client.Token.toCore, Client.Url.join, Client.Url.render, refreshPath, hp]
          · simp [Blocking.auth_refresh, Client.respToCore, Client.AuthResult.toCore,
              Client.Token.toCore, hp]
          · intro _
            simp [Blocking.auth_refresh, Client.respToCore, Client.AuthResult.toCore,
              Client.Token.toCore, hp, timestamp]

/-- C8 (witness): the cross-implementation agreement at a concrete
successful refresh: same request, same outcome, and corresponding stored
tokens. -/
theorem C8_witness :
    ((Client.AuthorizedClient.refresh sampleAC
        (.ok (.Success sampleJwt (Json.obj [("id", .str "u1")])))).map
          Client.ACRefreshResult.calls).getD []
      = (Blocking.auth_refresh samplePB (.ok (.Success sampleJwt))).calls
    ∧ (Blocking.auth_refresh samplePB (.ok (.Success sampleJwt))).state.token
      = some
        { auth := "newbearer", expires := 200, refreshable := true, ty := "auth",
          collection := "users" } := by
  have h := C8_refresh_equivalence.2 sampleAC
    (.ok (.Success sampleJwt (Json.obj [("id", .str "u1")])))
    ⟨.ok (),
      { client := sampleAC.client
        token :=
          { collection := "users", user := "u1", auth := "newbearer", expires := 200,
            refreshable := true, ty := "auth" } },
      [⟨"POST", "http://pb.local/api/collections/users/auth-refresh",
        [("Authorization", "oldbearer")]⟩]⟩ rfl
  exact ⟨h.1, h.2.2 rfl⟩

/-- Reassociation of the record-item path: the code builds it as
`recordsPath collection ++ "/" ++ id`. -/
theorem recordsPath_item (c id : String) :
    recordsPath c ++ "/" ++ id = "/api/collections/" ++ c ++ "/records/" ++ id := by
  unfold recordsPath
  rw [String.append_assoc ("/api/collections/" ++ c) "/records" "/"]
  rfl

/-- C9: the batch envelope — `BatchRequest::request` maps `Create` to a
`POST` on `/api/collections/{collection}/records` with the record as body,
`Update` to a `PATCH` on `/api/collections/{collection}/records/{id}` with
the record as body, and `Delete` to a `DELETE` on
`/api/collections/{collection}/records/{id}` with no body key; the `?{query}`
suffix is appended exactly when the options serialize to a non-empty query
string (the all-`none` options serialize to the empty string, present fields
are form-urlencoded); and `BatchBuilder::send` wraps the queued requests, in
queue order, in a `{"requests": [...]}` payload carried in the form's
`@jsonPayload` field and posted to `/api/batch`. -/
theorem C9_batch_envelope :
    (∀ (collection : String) (record : Json) (files : List (String × String))
        (o : CreateOptions),
      BatchRequest.request (.Create collection record files o) =
        .obj [("method", .str "POST"),
          ("url", .str (if (CreateOptions.serialize o).isEmpty
            then "/api/collections/" ++ collection ++ "/records"
            else "/api/collections/" ++ collection ++ "/records" ++ "?"
              ++ CreateOptions.serialize o)),
          ("body", record)]) ∧
    (∀ (collection id : String) (record : Json) (files : List (String × String))
        (o : UpdateOptions),
      BatchRequest.request (.Update collection id record files o) =
        .obj [("method", .str "PATCH"),
          ("url", .str (if (UpdateOptions.serialize o).isEmpty
            then "/api/collections/" ++ collection ++ "/records/" ++ id
            else "/api/collections/" ++ collection ++ "/records/" ++ id ++ "?"
              ++ UpdateOptions.serialize o)),
          ("body", record)]) ∧
    (∀ collection id : String,
      BatchRequest.request (.Delete collection id) =
        .obj [("method", .str "DELETE"),
          ("url", .str ("/api/collections/" ++ collection ++ "/records/" ++ id))]) ∧
    CreateOptions.serialize {} = ""
    ∧ CreateOptions.serialize { expand := some "rel", fields := some "id,title" }
      = "expand=rel&fields=id%2Ctitle"
    ∧ (∀ (c : Client.Client) (requests : List BatchRequest),
        (BatchBuilder.send c.post requests).payload
          = .obj [("requests", .arr (requests.map BatchRequest.request))]
        ∧ (BatchBuilder.send c.post requests).parts.head?
          = some ("@jsonPayload", ((BatchBuilder.send c.post requests).payload).render)
        ∧ (BatchBuilder.send c.post requests).request
          = ⟨"POST", c.base_url.origin ++ "/api/batch", []⟩) := by
  refine ⟨fun _ _ _ _ => rfl, ?_, ?_, rfl, by decide, ?_⟩
  · intro collection id record files o
    simp only [BatchRequest.request]
    rw [recordsPath_item]
  · intro collection id
    simp only [BatchRequest.request]
    rw [recordsPath_item]
  · intro c requests
    refine ⟨rfl, rfl, rfl⟩

/-- C10: every request built through `AuthorizedClient`'s `get`, `post`,
`patch` or `delete` is the corresponding plain-client request with the
`Authorization` header holding the stored token's bearer appended
unconditionally; the built request depends only on the base URL and the
bearer string — two tokens with the same bearer yield identical requests no
matter their expiry, and the header is present even when `is_expired` holds
— and none of these builders performs a refresh (their embedding is a pure
function of the client, with no refresh oracle and no issued auth call). -/
theorem C10_authorized_requests :
    (∀ (ac : Client.AuthorizedClient) (uri : String),
      ac.get uri = (ac.client.get uri).header "Authorization" ac.token.auth
      ∧ ac.post uri = (ac.client.post uri).header "Authorization" ac.token.auth
      ∧ ac.patch uri = (ac.client.patch uri).header "Authorization" ac.token.auth
      ∧ ac.delete uri = (ac.client.delete uri).header "Authorization" ac.token.auth) ∧
    (∀ (ac : Client.AuthorizedClient) (uri : String),
      (ac.get uri).headers = [("Authorization", ac.token.auth)]
      ∧ (ac.post uri).headers = [("Authorization", ac.token.auth)]
      ∧ (ac.patch uri).headers = [("Authorization", ac.token.auth)]
      ∧ (ac.delete uri).headers = [("Authorization", ac.token.auth)]) ∧
    (∀ (c : Client.Client) (t₁ t₂ : Client.Token) (uri : String), t₁.auth = t₂.auth →
      Client.AuthorizedClient.get ⟨c, t₁⟩ uri = Client.AuthorizedClient.get ⟨c, t₂⟩ uri
      ∧ Client.AuthorizedClient.post ⟨c, t₁⟩ uri = Client.AuthorizedClient.post ⟨c, t₂⟩ uri
      ∧ Client.AuthorizedClient.patch ⟨c, t₁⟩ uri = Client.AuthorizedClient.patch ⟨c, t₂⟩ uri
      ∧ Client.AuthorizedClient.delete ⟨c, t₁⟩ uri
        = Client.AuthorizedClient.delete ⟨c, t₂⟩ uri) ∧
    (∀ (ac : Client.AuthorizedClient) (uri : String) (now : Time),
      ac.is_expired now = true →
        ("Authorization", ac.token.auth) ∈ (ac.get uri).headers) := by
  refine ⟨fun ac uri => ⟨rfl, rfl, rfl, rfl⟩, fun ac uri => ⟨rfl, rfl, rfl, rfl⟩, ?_, ?_⟩
  · intro c t₁ t₂ uri h
    refine ⟨?_, ?_, ?_, ?_⟩ <;>
      simp [Client.AuthorizedClient.get, Client.AuthorizedClient.post,
        Client.AuthorizedClient.patch, Client.AuthorizedClient.delete,
        Client.RequestBuilder.header, h]
  · intro ac uri now _
    simp [Client.AuthorizedClient.get, Client.Client.get, Client.RequestBuilder.header]

/-- C10 (witness): the unconditional bearer attachment at a concrete expired
token — `sampleCToken` expires at 100, yet at time 150 the built request
still carries its bearer. -/
theorem C10_witness :
    Client.AuthorizedClient.is_expired sampleAC 150 = true
    ∧ ("Authorization", "oldbearer") ∈ (Client.AuthorizedClient.get sampleAC "/api/health").headers
    ∧ Client.AuthorizedClient.get
        ⟨sampleAC.client, { sampleCToken with expires := 999999 }⟩ "/api/health"
      = Client.AuthorizedClient.get sampleAC "/api/health" :=
  ⟨by decide,
    C10_authorized_requests.2.2.2 sampleAC "/api/health" 150 (by decide),
    (C10_authorized_requests.2.2.1 sampleAC.client { sampleCToken with expires := 999999 }
      sampleCToken "/api/health" rfl).1⟩

end Pocket
